import Mathlib

/-!
Verification of the streaming segmentation and transcript-stitching engine of
the Learning-Assistant-App backend (`src/backend`), against its specification.

The Python source is shallowly embedded: pure fragments of the code become
Lean functions; the mutable per-session state of the audio handler, the
transcriber and the transcript buffers becomes explicit state records passed
through step functions.  Python strings are modelled as lists of characters
(`Text`), wall-clock times and audio sample amplitudes as rationals, and one
frame-block delivered by the capture callback as a list of samples (`Frame`).
-/

/-! ## Text primitives (Python string operations used by the code) -/

/-- A Python string, modelled as its sequence of characters. -/
abbrev Text := List Char

/-- Python `s.strip()`: remove leading and trailing whitespace. -/
def pyStrip (s : Text) : Text :=
  ((s.dropWhile Char.isWhitespace).reverse.dropWhile Char.isWhitespace).reverse

/-- Helper for `pySplit`: scan the text, accumulating the current word in
reverse in `acc`. -/
def pySplitAux : Text → Text → List Text
  | [], acc => if acc = [] then [] else [acc.reverse]
  | c :: rest, acc =>
      if c.isWhitespace then
        if acc = [] then pySplitAux rest []
        else acc.reverse :: pySplitAux rest []
      else pySplitAux rest (c :: acc)

/-- Python `s.split()` with no argument: the maximal whitespace-free runs of
the string, in order (empty pieces never occur). -/
def pySplit (s : Text) : List Text :=
  pySplitAux s []

/-- Python `" ".join(ws)`. -/
def spaceJoin (ws : List Text) : Text :=
  List.intercalate [' '] ws

/-- Python `s[-n:]`: the trailing `n` characters (the whole string when it is
shorter than `n`). -/
def lastChars (n : Nat) (s : Text) : Text :=
  s.drop (s.length - n)

/-! ## Transcript Stitcher (`app.py`) -/

/-- State of the live transcript: the two string buffers
`self.current_transcription` and `self.current_translation` of
`LearningAssistantApp.process_realtime_audio`. -/
structure TranscriptState where
  transcription : Text
  translation : Text
deriving DecidableEq

/-- The comparison made by one iteration of the overlap loop of
`_add_text_smartly`:
`self.current_transcription.strip().endswith(" ".join(words[:i]))`. -/
def matchesAt (cur : Text) (ws : List Text) (i : Nat) : Bool :=
  (spaceJoin (ws.take i)).isSuffixOf (pyStrip cur)

/-- The `for ... break` overlap loop of `_add_text_smartly`: the first
candidate prefix length in the given list whose word-phrase matches. -/
def firstMatch (cur : Text) (ws : List Text) : List Nat → Option Nat
  | [] => none
  | i :: rest => if matchesAt cur ws i then some i else firstMatch cur ws rest

/-- The overlap search of `_add_text_smartly`:
`for i in range(3, min(len(words) + 1, 10))`, stopping at the first match. -/
def findOverlap (cur : Text) (ws : List Text) : Option Nat :=
  firstMatch cur ws (List.range' 3 (min (ws.length + 1) 10 - 3))

/-- Python `self.current_transcription[-1] in '.!?'`. -/
def isSentenceEnd (c : Char) : Bool :=
  c = '.' || c = '!' || c = '?'

/-- Embedding of `LearningAssistantApp._add_text_smartly` (`app.py`): merge a
new fragment and its translation into the transcript state.  The character
reads `new_text[0]` and `self.current_transcription[-1]` are defaulted to a
space when the string is empty; both reads happen only on non-empty strings
(the branch requires more than 3 words, respectively a non-empty
transcription). -/
def addTextSmartly (st : TranscriptState) (newText newTranslation : Text) :
    TranscriptState :=
  if st.transcription = [] then
    { transcription := newText, translation := newTranslation }
  else
    let words := pySplit newText
    if words.length ≤ 3 then
      { transcription := st.transcription ++ [' '] ++ newText,
        translation := st.translation ++ [' '] ++ newTranslation }
    else
      match findOverlap st.transcription words with
      | some i =>
          { transcription :=
              st.transcription ++ [' '] ++ spaceJoin (words.drop i),
            translation := st.translation ++ [' '] ++ newTranslation }
      | none =>
          if (newText.headD ' ').isUpper ∧ st.transcription ≠ [] ∧
              isSentenceEnd (st.transcription.getLastD ' ') then
            { transcription := st.transcription ++ ['\n'] ++ newText,
              translation := st.translation ++ ['\n'] ++ newTranslation }
          else
            { transcription := st.transcription ++ [' '] ++ newText,
              translation := st.translation ++ [' '] ++ newTranslation }

/-- Modelled from the spec's words, for comparison with the code: the LONGEST
word-count `i` with `3 ≤ i ≤ 10`, at most the fragment's word count, such
that the first `i` words of the fragment match a trailing substring of the
current transcription.  (`List.range' 3 8 = [3, ..., 10]`.) -/
def specLongestOverlap (cur : Text) (ws : List Text) : Option Nat :=
  ((List.range' 3 8).filter
    (fun i => i ≤ ws.length ∧ matchesAt cur ws i)).max?

/-- The trim step of `process_chunk` (`app.py`): truncate both channels to
their trailing 500 characters. -/
def trimState (st : TranscriptState) : TranscriptState :=
  { transcription := lastChars 500 st.transcription,
    translation := lastChars 500 st.translation }

/-- Observable outcome of one `process_chunk` call (`app.py`): the resulting
transcript state, whether the translation collaborator was called, whether
the caption sink `display_live_caption` was invoked, and whether the trim
step ran. -/
structure ChunkStep where
  state : TranscriptState
  translatorCalled : Bool
  displayCalled : Bool
  trimmed : Bool
deriving DecidableEq

/-- Embedding of the `process_chunk` closure of
`LearningAssistantApp.process_realtime_audio` (`app.py`), given the text the
transcriber returned for the segment and the text the translator would
return for it. -/
def process_chunk (st : TranscriptState) (text translationResult : Text) :
    ChunkStep :=
  if pyStrip text ≠ [] then
    let doTrim := 1000 < st.transcription.length
    let st1 := if doTrim then trimState st else st
    let st2 := addTextSmartly st1 text translationResult
    { state := st2, translatorCalled := true, displayCalled := true,
      trimmed := doTrim }
  else
    { state := st, translatorCalled := false, displayCalled := false,
      trimmed := false }

/-! ## Segmenter state and configuration (`handler/audio_handler.py`) -/

/-- One frame-block of audio samples as appended by the capture callback
(`indata.copy()`), flattened to its sample amplitudes. -/
abbrev Frame := List ℚ

/-- The per-session configuration fixed by `start_realtime_recording`. -/
structure Config where
  sample_rate : ℚ
  silence_threshold : ℚ
  overlap_seconds : ℚ
  force_process_interval : ℚ
deriving DecidableEq

/-- The effective overlap fixed at `start_realtime_recording`:
`min(chunk_overlap_seconds, chunk_duration_seconds * 0.9)`. -/
def effectiveOverlapSeconds
    (chunk_overlap_seconds chunk_duration_seconds : ℚ) : ℚ :=
  min chunk_overlap_seconds (chunk_duration_seconds * (9 / 10))

/-- The configuration `start_realtime_recording` installs:
`silence_threshold = 0.005`, the clamped overlap, and
`force_process_interval = 3.0`. -/
def startConfig (sample_rate chunk_duration_seconds chunk_overlap_seconds : ℚ) :
    Config :=
  { sample_rate := sample_rate,
    silence_threshold := 5 / 1000,
    overlap_seconds :=
      effectiveOverlapSeconds chunk_overlap_seconds chunk_duration_seconds,
    force_process_interval := 3 }

/-- Mutable segmenter state shared by the capture callback, the chunk
processor and the watchdog: `self.current_chunk`, `self.history_buffer`, the
`self.chunk_ready` event, and `self.last_processed_time`. -/
structure HandlerState where
  current_chunk : List Frame
  history_buffer : List Frame
  chunk_ready : Bool
  last_processed_time : ℚ
deriving DecidableEq

/-- Embedding of the energy measure `np.mean(np.abs(chunk_audio))` computed
on the concatenation of the segment's frame-blocks (division by zero, for an
empty segment, yields `0` in `ℚ`; the processor only evaluates it on
non-empty buffers). -/
def energy (blocks : List Frame) : ℚ :=
  ((blocks.flatten).map abs).sum / (blocks.flatten).length

/-- Helper for `_combine_chunks_with_overlap`: walk the reversed history,
taking blocks until the accumulated sample count reaches `need` (the loop
inserts each block before testing the running total). -/
def collectHistRev (need : Nat) : List Frame → List Frame
  | [] => []
  | h :: rest =>
      if need ≤ h.length then [h]
      else h :: collectHistRev (need - h.length) rest

/-- Embedding of `AudioHandler._combine_chunks_with_overlap`: prefix the
current chunk with the most recent history blocks covering
`int(overlap_seconds * sample_rate)` samples (Python `int` truncation,
modelled as the floor, the two agreeing on the non-negative values used). -/
def combine_chunks_with_overlap (sample_rate : ℚ)
    (history_buffer current_chunk : List Frame) (overlap_seconds : ℚ) :
    List Frame :=
  (if 0 < overlap_seconds ∧ history_buffer ≠ [] then
    (collectHistRev (Int.toNat ⌊overlap_seconds * sample_rate⌋)
      history_buffer.reverse).reverse
   else []) ++ current_chunk

/-- The silence-path trimming of the active buffer:
`if len(self.current_chunk) > 2: self.current_chunk = self.current_chunk[-2:]`
(kept whole when it already holds at most 2 blocks). -/
def keepTail (l : List Frame) : List Frame :=
  if 2 < l.length then l.drop (l.length - 2) else l

/-- The History Ring record step of the chunk processor:
`self.history_buffer.extend(self.current_chunk)` followed by
`if len(self.history_buffer) > 20: self.history_buffer = self.history_buffer[-20:]`. -/
def recordHistory (history_buffer current_chunk : List Frame) : List Frame :=
  if 20 < (history_buffer ++ current_chunk).length then
    (history_buffer ++ current_chunk).drop
      ((history_buffer ++ current_chunk).length - 20)
  else history_buffer ++ current_chunk

/-- Outcome of one chunk-processor evaluation: the updated segmenter state
and the segment handed to `chunk_callback`, when one was emitted. -/
structure ProcResult where
  state : HandlerState
  emitted : Option (List Frame)
deriving DecidableEq

/-- Embedding of one iteration of the `chunk_processor` loop of
`AudioHandler.start_realtime_recording`, evaluated at wall-clock time `t`
after the `chunk_ready.wait` returns: the forced-flush test, the
`chunk_ready` consumption, the silence-discard path and the emit path. -/
def chunk_processor_step (cfg : Config) (st : HandlerState) (t : ℚ) :
    ProcResult :=
  let force_process := cfg.force_process_interval ≤ t - st.last_processed_time
  if st.chunk_ready ∨ (force_process ∧ 0 < st.current_chunk.length) then
    if 0 < st.current_chunk.length then
      let seg := combine_chunks_with_overlap cfg.sample_rate
        st.history_buffer st.current_chunk cfg.overlap_seconds
      if energy seg < cfg.silence_threshold ∧ ¬ force_process then
        { state :=
            { current_chunk := keepTail st.current_chunk,
              history_buffer := st.history_buffer,
              chunk_ready := false,
              last_processed_time := t },
          emitted := none }
      else
        { state :=
            { current_chunk :=
                if 2 < st.current_chunk.length then
                  st.current_chunk.drop (st.current_chunk.length - 2)
                else [],
              history_buffer := recordHistory st.history_buffer st.current_chunk,
              chunk_ready := false,
              last_processed_time := t },
          emitted := some seg }
    else
      { state := { st with chunk_ready := false }, emitted := none }
  else
    { state := st, emitted := none }

/-- Embedding of one tick of the `watchdog` loop of
`AudioHandler.start_realtime_recording` at wall-clock time `t`: when no
processing has happened for at least `force_process_interval * 2` and the
active buffer is non-empty, set the `chunk_ready` event. -/
def watchdog_tick (force_process_interval : ℚ) (st : HandlerState) (t : ℚ) :
    HandlerState :=
  if force_process_interval * 2 ≤ t - st.last_processed_time ∧
      0 < st.current_chunk.length then
    { st with chunk_ready := true }
  else st

/-! ## Transcriber (`transcription.py`) -/

/-- Mutable transcriber state: `self.empty_count` and
`self.last_transcription_time`. -/
structure TranscriberState where
  empty_count : Nat
  last_transcription_time : ℚ
deriving DecidableEq

/-- Outcome of one `transcribe_audio` call: the returned text, the updated
state, and whether the external speech-to-text collaborator was invoked. -/
structure TranscribeOutcome where
  result : Text
  state : TranscriberState
  apiCalled : Bool
deriving DecidableEq

/-- The `self.empty_count += 1` bookkeeping, applied only in real-time
mode. -/
def bumpEmpty (is_realtime : Bool) (st : TranscriberState) :
    TranscriberState :=
  if is_realtime then { st with empty_count := st.empty_count + 1 } else st

/-- Embedding of `Transcriber.transcribe_audio` (`transcription.py`).
`fileSize` is `os.path.getsize(audio_file_path)`; `apiResult` is the text the
speech-to-text collaborator returns, `none` when the call raises. -/
def transcribe_audio (st : TranscriberState) (currentTime : ℚ)
    (is_realtime : Bool) (fileSize : Nat) (apiResult : Option Text) :
    TranscribeOutcome :=
  if is_realtime ∧ 3 < st.empty_count ∧
      currentTime - st.last_transcription_time < 5 then
    { result := [], state := st, apiCalled := false }
  else if fileSize < 1024 then
    { result := [], state := bumpEmpty is_realtime st, apiCalled := false }
  else
    match apiResult with
    | none =>
        { result := [], state := bumpEmpty is_realtime st, apiCalled := true }
    | some r =>
        if pyStrip r ≠ [] then
          { result := r,
            state := { empty_count := 0, last_transcription_time := currentTime },
            apiCalled := true }
        else
          { result := r, state := bumpEmpty is_realtime st, apiCalled := true }

/-! ## Translators (`translation.py` and `translator.py`) -/

/-- Outcome of the Azure translation HTTP call: a translated text extracted
from the response body, a well-formed response with an empty body, or a
raised exception (HTTP error, network failure). -/
inductive TransApiOutcome where
  | ok (t : Text)
  | emptyBody
  | failure
deriving DecidableEq

/-- Embedding of `Translator.translate_text` from `translation.py` (the
module `app.py` imports as `services.translation`): an empty response body
returns `""`, and the `except` branch returns `""`. -/
def translation_translate_text (text : Text) (api : TransApiOutcome) : Text :=
  if text = [] then []
  else
    match api with
    | .ok t => t
    | .emptyBody => []
    | .failure => []

/-- Embedding of `Translator.translate_text` from `translator.py`: indexing
an empty response body raises, and the `except` branch returns the original
`text`. -/
def translator_translate_text (text : Text) (api : TransApiOutcome) : Text :=
  if text = [] then []
  else
    match api with
    | .ok t => t
    | .emptyBody => text
    | .failure => text

/-! ## Concrete instances used to exercise the segmenter -/

/-- A small concrete configuration: sample rate 10, the reference silence
threshold `0.005`, no overlap, forced-flush interval 3 s. -/
def cfgNoOv : Config :=
  { sample_rate := 10, silence_threshold := 5 / 1000,
    overlap_seconds := 0, force_process_interval := 3 }

/-- A concrete segmenter state holding three all-zero (silent) frame-blocks
with the boundary signal not raised. -/
def stQuiet : HandlerState :=
  { current_chunk := [[0], [0], [0]], history_buffer := [],
    chunk_ready := false, last_processed_time := 0 }

/-- `stQuiet` with the `chunk_ready` event set. -/
def stQuietReady : HandlerState :=
  { stQuiet with chunk_ready := true }

/-- A concrete stalled state: one silent frame-block buffered, no boundary
signal, last processing at time 0. -/
def stStalled : HandlerState :=
  { current_chunk := [[0]], history_buffer := [],
    chunk_ready := false, last_processed_time := 0 }

/-! ## Helper lemmas -/

/-- Characterisation of the break-at-first-match loop over an ascending
interval of candidate lengths: a returned index lies in the interval, its
phrase matches, and every smaller candidate in the interval fails. -/
theorem firstMatch_range'_some (cur : Text) (ws : List Text) :
    ∀ (n s i : Nat), firstMatch cur ws (List.range' s n) = some i →
      s ≤ i ∧ i < s + n ∧ matchesAt cur ws i = true ∧
      ∀ j, s ≤ j → j < i → matchesAt cur ws j = false := by
  intro n
  induction n with
  | zero => intro s i h; simp [firstMatch] at h
  | succ n ih =>
      intro s i h
      rw [List.range'_succ] at h
      by_cases hm : matchesAt cur ws s = true
      · simp [firstMatch, hm] at h
        subst h
        exact ⟨Nat.le_refl s, by omega, hm,
          fun j hj1 hj2 => absurd (Nat.lt_of_le_of_lt hj1 hj2) (Nat.lt_irrefl s)⟩
      · simp only [firstMatch] at h
        rw [if_neg hm] at h
        obtain ⟨h1, h2, h3, h4⟩ := ih (s + 1) i h
        refine ⟨by omega, by omega, h3, fun j hj1 hj2 => ?_⟩
        rcases Nat.lt_or_ge j (s + 1) with hj | hj
        · have hjs : j = s := by omega
          subst hjs
          simpa using hm
        · exact h4 j hj hj2

/-- Converse of `firstMatch_range'_some`: when a candidate in the interval
matches and every smaller candidate fails, the loop returns it. -/
theorem firstMatch_range'_intro (cur : Text) (ws : List Text) :
    ∀ (n s i : Nat), s ≤ i → i < s + n → matchesAt cur ws i = true →
      (∀ j, s ≤ j → j < i → matchesAt cur ws j = false) →
      firstMatch cur ws (List.range' s n) = some i := by
  intro n
  induction n with
  | zero => intro s i h1 h2 _ _; exact absurd h2 (by omega)
  | succ n ih =>
      intro s i h1 h2 h3 h4
      rw [List.range'_succ]
      rcases Nat.eq_or_lt_of_le h1 with rfl | hlt
      · simp [firstMatch, h3]
      · have hs : matchesAt cur ws s = false := h4 s (Nat.le_refl s) hlt
        simp only [firstMatch]
        rw [if_neg (by simp [hs])]
        exact ih (s + 1) i hlt (by omega) h3 (fun j hj1 hj2 => h4 j (by omega) hj2)

/-- The silence-path trim always equals dropping all but the last two
blocks. -/
theorem keepTail_eq_drop (l : List Frame) :
    keepTail l = l.drop (l.length - 2) := by
  unfold keepTail
  split_ifs with h
  · rfl
  · have hz : l.length - 2 = 0 := by omega
    rw [hz, List.drop_zero]

/-! ## Claims -/

/-- C1, counterexample to the claim as stated: for the current transcription
"x y z x y z" and the fragment "x y z x y z w", the longest word-count whose
phrase matches a trailing substring (per the spec's 3-to-10-word search) is
6, yet `_add_text_smartly` does not append only the words after that longest
matched position (it stops at the 3-word match and duplicates "x y z"). -/
theorem addTextSmartly_longest_claim_cex :
    specLongestOverlap "x y z x y z".data (pySplit "x y z x y z w".data)
      = some 6 ∧
    (addTextSmartly ⟨"x y z x y z".data, "t".data⟩ "x y z x y z w".data
        "u".data).transcription
      = "x y z x y z x y z w".data ∧
    (addTextSmartly ⟨"x y z x y z".data, "t".data⟩ "x y z x y z w".data
        "u".data).transcription
      ≠ "x y z x y z".data ++ [' ']
        ++ spaceJoin ((pySplit "x y z x y z w".data).drop 6) := by
  decide

/-- C1 (amended): for a non-empty transcription and a fragment of more than
3 words, the merge searches prefix word-counts 3 up to at most 9 (and at
most the fragment's word count) in ascending order, stops at the FIRST
(shortest) match, and appends only the fragment's words after that first
matched position; the translation channel receives the entire translated
fragment. -/
theorem addTextSmartly_first_overlap (st : TranscriptState)
    (newText newTranslation : Text) (i : Nat)
    (hne : st.transcription ≠ [])
    (hw : 3 < (pySplit newText).length)
    (hfind : findOverlap st.transcription (pySplit newText) = some i) :
    3 ≤ i ∧ i < min ((pySplit newText).length + 1) 10 ∧
    matchesAt st.transcription (pySplit newText) i = true ∧
    (∀ j, 3 ≤ j → j < i →
      matchesAt st.transcription (pySplit newText) j = false) ∧
    addTextSmartly st newText newTranslation =
      { transcription :=
          st.transcription ++ [' '] ++ spaceJoin ((pySplit newText).drop i),
        translation := st.translation ++ [' '] ++ newTranslation } := by
  obtain ⟨h1, h2, h3, h4⟩ :=
    firstMatch_range'_some st.transcription (pySplit newText) _ 3 i hfind
  refine ⟨h1, by omega, h3, h4, ?_⟩
  unfold addTextSmartly
  rw [if_neg hne]
  simp only [Nat.not_le.mpr hw, if_neg, ite_false, if_false]
  rw [hfind]

/-- C1 witness: the claim's own example, where the first match (3 words,
"brown fox jumps") is also the longest, merges without duplication. -/
theorem addTextSmartly_first_overlap_witness :
    (addTextSmartly ⟨"the quick brown fox jumps".data, "x".data⟩
        "brown fox jumps over the lazy dog".data "y".data).transcription
      = "the quick brown fox jumps over the lazy dog".data ∧
    matchesAt "the quick brown fox jumps".data
      (pySplit "brown fox jumps over the lazy dog".data) 3 = true := by
  have h := addTextSmartly_first_overlap
    ⟨"the quick brown fox jumps".data, "x".data⟩
    "brown fox jumps over the lazy dog".data "y".data 3
    (by decide) (by decide) (by decide)
  exact ⟨by rw [h.2.2.2.2]; decide, h.2.2.1⟩

/-- C5, counterexample to the claim as stated: after merging the fragment
"a b c a b c" into "x", merging the identical fragment again is caught by the
3-word match "a b c" rather than the full-length match, and re-appends
" a b c" — new text is contributed. -/
theorem repeat_fragment_cex :
    (addTextSmartly ⟨"x".data, "u".data⟩ "a b c a b c".data
        "t".data).transcription
      = "x a b c a b c".data ∧
    (addTextSmartly (addTextSmartly ⟨"x".data, "u".data⟩ "a b c a b c".data
        "t".data) "a b c a b c".data "t".data).transcription
      = "x a b c a b c a b c".data ∧
    ("x a b c a b c a b c".data : Text) ≠ "x a b c a b c".data ∧
    ("x a b c a b c a b c".data : Text) ≠ "x a b c a b c".data ++ [' '] := by
  decide

/-- C5 (amended): a repeated fragment of 4 to 9 words is absorbed at the
full-length match — contributing nothing beyond a separating space — only
when no shorter prefix of at least 3 words also matches the transcription's
trailing text; fragments of 10 or more words (or at most 3 words) are not
absorbed this way. -/
theorem repeat_fragment_absorbed (st : TranscriptState) (frag tr : Text)
    (hne : st.transcription ≠ [])
    (h4 : 3 < (pySplit frag).length)
    (h9 : (pySplit frag).length ≤ 9)
    (hfull : matchesAt st.transcription (pySplit frag)
      (pySplit frag).length = true)
    (hmin : ∀ j, 3 ≤ j → j < (pySplit frag).length →
      matchesAt st.transcription (pySplit frag) j = false) :
    (addTextSmartly st frag tr).transcription = st.transcription ++ [' '] := by
  have hfind : findOverlap st.transcription (pySplit frag)
      = some (pySplit frag).length := by
    apply firstMatch_range'_intro
    · exact Nat.le_of_lt h4
    · omega
    · exact hfull
    · exact hmin
  unfold addTextSmartly
  rw [if_neg hne]
  simp only [Nat.not_le.mpr h4, if_neg, ite_false, if_false]
  rw [hfind]
  simp [spaceJoin, List.intercalate]

/-- C5 witness: the transcription "hello a b c d" followed by the repeated
fragment "a b c d" (first matched at its full length 4) gains only a
space. -/
theorem repeat_fragment_absorbed_witness :
    (addTextSmartly ⟨"hello a b c d".data, "t".data⟩ "a b c d".data
        "u".data).transcription
      = "hello a b c d".data ++ [' '] := by
  exact repeat_fragment_absorbed ⟨"hello a b c d".data, "t".data⟩
    "a b c d".data "u".data (by decide) (by decide) (by decide) (by decide)
    (fun j h1 h2 => by
      have hlen : (pySplit ("a b c d".data : Text)).length = 4 := by decide
      rw [hlen] at h2
      have hj : j = 3 := by omega
      subst hj
      decide)

/-- C6, counterexample to the claim as stated: `translate_text` of
`translation.py` — the Translator `app.py` imports as `services.translation`
— returns the empty string, not the untranslated source text, when the
collaborator call fails. -/
theorem translate_fail_cex :
    translation_translate_text "hello".data TransApiOutcome.failure = [] ∧
    translation_translate_text "hello".data TransApiOutcome.failure
      ≠ "hello".data := by
  decide

/-- C6 (amended): on a failed translation call for non-empty text, the
Translator of `translator.py` returns the untranslated source text
(fail-open), while the Translator of `translation.py` — the one the
application imports — returns the empty string. -/
theorem translate_fail_open (text : Text) (h : text ≠ []) :
    translator_translate_text text TransApiOutcome.failure = text ∧
    translation_translate_text text TransApiOutcome.failure = [] := by
  unfold translator_translate_text translation_translate_text
  simp [h]

/-- C6 witness at the concrete text "hola". -/
theorem translate_fail_open_witness :
    translator_translate_text "hola".data TransApiOutcome.failure
      = "hola".data ∧
    translation_translate_text "hola".data TransApiOutcome.failure = [] :=
  translate_fail_open "hola".data (by decide)

/-- C9: a whitespace-only transcription result leaves the transcript state
untouched, calls no translator, runs no trim, and does not refresh the
caption sink; a failed speech-to-text collaborator call yields the empty
result, so it falls under this case. -/
theorem empty_fragment_noop (st : TranscriptState) (text tr : Text)
    (ts : TranscriberState) (currentTime : ℚ) (is_realtime : Bool)
    (fileSize : Nat)
    (h : pyStrip text = []) :
    process_chunk st text tr =
      { state := st, translatorCalled := false, displayCalled := false,
        trimmed := false } ∧
    (transcribe_audio ts currentTime is_realtime fileSize none).result = [] := by
  constructor
  · unfold process_chunk
    simp [h]
  · unfold transcribe_audio
    split_ifs <;> rfl

/-- C9 witness: a three-space fragment against the transcript state
("abc", "def"). -/
theorem empty_fragment_noop_witness :
    process_chunk ⟨"abc".data, "def".data⟩ "   ".data "zz".data
      = { state := ⟨"abc".data, "def".data⟩, translatorCalled := false,
          displayCalled := false, trimmed := false } :=
  (empty_fragment_noop ⟨"abc".data, "def".data⟩ "   ".data "zz".data
    ⟨0, 0⟩ 0 true 0 (by decide)).1

/-- C10: in real-time mode, with more than 3 consecutive empty results and
less than 5 seconds since the last non-empty transcription,
`transcribe_audio` returns the empty string at once — no collaborator call,
no state change; and any call whose result is non-blank resets the
empty-result counter to 0. -/
theorem transcriber_skip_and_reset (ts : TranscriberState) (currentTime : ℚ)
    (fileSize : Nat) (apiResult : Option Text)
    (hc : 3 < ts.empty_count)
    (ht : currentTime - ts.last_transcription_time < 5) :
    transcribe_audio ts currentTime true fileSize apiResult
      = { result := [], state := ts, apiCalled := false } ∧
    ∀ (ts' : TranscriberState) (t' : ℚ) (rt : Bool) (fs : Nat)
      (api : Option Text),
      pyStrip (transcribe_audio ts' t' rt fs api).result ≠ [] →
      (transcribe_audio ts' t' rt fs api).state.empty_count = 0 := by
  constructor
  · unfold transcribe_audio
    rw [if_pos ⟨rfl, hc, ht⟩]
  · intro ts' t' rt fs api h
    unfold transcribe_audio at h ⊢
    by_cases h1 : (rt = true) ∧ 3 < ts'.empty_count ∧
        t' - ts'.last_transcription_time < 5
    · rw [if_pos h1] at h
      exact absurd rfl h
    · rw [if_neg h1] at h ⊢
      by_cases h2 : fs < 1024
      · rw [if_pos h2] at h
        exact absurd rfl h
      · rw [if_neg h2] at h ⊢
        cases api with
        | none => exact absurd rfl h
        | some r =>
            by_cases h3 : pyStrip r ≠ []
            · simp only [if_pos h3]
            · simp only [if_neg h3] at h
              exact absurd h (by simpa using h3)

/-- The record-and-trim step never leaves more than 20 blocks in the
History Ring. -/
theorem recordHistory_length_le (history_buffer current_chunk : List Frame) :
    (recordHistory history_buffer current_chunk).length ≤ 20 := by
  unfold recordHistory
  split_ifs with h
  · simp only [List.length_drop]
    omega
  · omega

/-- C2: a closed segment whose energy is below the silence threshold is
never handed to the Emitter when no forced flush is in effect, and is always
handed to the Emitter — regardless of energy — when a forced flush is in
effect. -/
theorem silence_suppression (cfg : Config) (st : HandlerState) (t : ℚ) :
    (energy (combine_chunks_with_overlap cfg.sample_rate st.history_buffer
        st.current_chunk cfg.overlap_seconds) < cfg.silence_threshold →
      t - st.last_processed_time < cfg.force_process_interval →
      (chunk_processor_step cfg st t).emitted = none) ∧
    (cfg.force_process_interval ≤ t - st.last_processed_time →
      st.current_chunk ≠ [] →
      (chunk_processor_step cfg st t).emitted =
        some (combine_chunks_with_overlap cfg.sample_rate st.history_buffer
          st.current_chunk cfg.overlap_seconds)) := by
  constructor
  · intro he hf
    have hnf : ¬ cfg.force_process_interval ≤ t - st.last_processed_time :=
      not_le.mpr hf
    simp only [chunk_processor_step]
    by_cases hr : st.chunk_ready = true ∨
        (cfg.force_process_interval ≤ t - st.last_processed_time ∧
          0 < st.current_chunk.length)
    · rw [if_pos hr]
      by_cases hc : 0 < st.current_chunk.length
      · rw [if_pos hc, if_pos ⟨he, hnf⟩]
      · rw [if_neg hc]
    · rw [if_neg hr]
  · intro hf hne
    have hlen : 0 < st.current_chunk.length := List.length_pos.mpr hne
    simp only [chunk_processor_step]
    rw [if_pos (Or.inr ⟨hf, hlen⟩), if_pos hlen, if_neg (fun h => h.2 hf)]

/-- C2 witness: the all-silent three-block segment is suppressed at time 1
(no forced flush) and emitted at time 10 (forced flush in effect). -/
theorem silence_suppression_witness :
    (chunk_processor_step cfgNoOv stQuietReady 1).emitted = none ∧
    (chunk_processor_step cfgNoOv stQuiet 10).emitted
      = some (combine_chunks_with_overlap cfgNoOv.sample_rate
          stQuiet.history_buffer stQuiet.current_chunk
          cfgNoOv.overlap_seconds) := by
  constructor
  · exact (silence_suppression cfgNoOv stQuietReady 1).1
      (by norm_num [energy, combine_chunks_with_overlap, cfgNoOv, stQuiet,
        stQuietReady])
      (by norm_num [cfgNoOv, stQuiet, stQuietReady])
  · exact (silence_suppression cfgNoOv stQuiet 10).2
      (by norm_num [cfgNoOv, stQuiet]) (by simp [stQuiet])

/-- C3, counterexample to the claim as stated: discarding the silent
three-block segment at time 1 trims the buffer to its last 2 blocks but DOES
advance `last_processed_time` (the code updates it before the energy
check). -/
theorem silence_discard_clock_cex :
    (chunk_processor_step cfgNoOv stQuietReady 1).emitted = none ∧
    (chunk_processor_step cfgNoOv stQuietReady 1).state.current_chunk
      = [[0], [0]] ∧
    (chunk_processor_step cfgNoOv stQuietReady 1).state.last_processed_time
      ≠ stQuietReady.last_processed_time := by
  norm_num [chunk_processor_step, cfgNoOv, stQuiet, stQuietReady, energy,
    combine_chunks_with_overlap, keepTail]

/-- C3 (amended): when a closed segment is discarded as silence, the segment
is not emitted and the active buffer is reduced to at most its 2 most recent
frame-blocks (a suffix of the old buffer), but `last_processed_time` IS
advanced to the processing time — the code sets it before the energy
check. -/
theorem silence_discard_state (cfg : Config) (st : HandlerState) (t : ℚ)
    (hr : st.chunk_ready = true)
    (he : energy (combine_chunks_with_overlap cfg.sample_rate
        st.history_buffer st.current_chunk cfg.overlap_seconds)
      < cfg.silence_threshold)
    (hf : t - st.last_processed_time < cfg.force_process_interval)
    (hne : st.current_chunk ≠ []) :
    chunk_processor_step cfg st t =
      { state :=
          { current_chunk :=
              st.current_chunk.drop (st.current_chunk.length - 2),
            history_buffer := st.history_buffer,
            chunk_ready := false,
            last_processed_time := t },
        emitted := none } ∧
    (st.current_chunk.drop (st.current_chunk.length - 2)).length ≤ 2 ∧
    st.current_chunk.drop (st.current_chunk.length - 2) <:+ st.current_chunk := by
  refine ⟨?_, ?_, List.drop_suffix _ _⟩
  · simp only [chunk_processor_step]
    rw [if_pos (Or.inl hr), if_pos (List.length_pos.mpr hne),
      if_pos ⟨he, not_le.mpr hf⟩, keepTail_eq_drop]
  · simp only [List.length_drop]
    omega

/-- C3 witness: the concrete silent discard at time 1. -/
theorem silence_discard_state_witness :
    chunk_processor_step cfgNoOv stQuietReady 1 =
      { state := { current_chunk := [[0], [0]], history_buffer := [],
                   chunk_ready := false, last_processed_time := 1 },
        emitted := none } := by
  have h := (silence_discard_state cfgNoOv stQuietReady 1 rfl
    (by norm_num [energy, combine_chunks_with_overlap, cfgNoOv, stQuiet,
      stQuietReady])
    (by norm_num [cfgNoOv, stQuiet, stQuietReady])
    (by simp [stQuiet, stQuietReady])).1
  rw [h]
  norm_num [stQuiet, stQuietReady]

/-- C4: a watchdog tick raises the boundary signal exactly when at least
twice the forced-flush interval has elapsed since `last_processed_time` and
the active buffer is non-empty — never on an empty buffer — and the raised
signal makes the processor's next evaluation close and emit the segment as a
forced flush. -/
theorem watchdog_forced_flush (cfg : Config) (st : HandlerState) (t t' : ℚ) :
    (cfg.force_process_interval * 2 ≤ t - st.last_processed_time →
      st.current_chunk ≠ [] →
      (watchdog_tick cfg.force_process_interval st t).chunk_ready = true) ∧
    (st.current_chunk = [] →
      watchdog_tick cfg.force_process_interval st t = st) ∧
    (0 ≤ cfg.force_process_interval →
      cfg.force_process_interval * 2 ≤ t - st.last_processed_time →
      st.current_chunk ≠ [] → t ≤ t' →
      (chunk_processor_step cfg
          (watchdog_tick cfg.force_process_interval st t) t').emitted
        = some (combine_chunks_with_overlap cfg.sample_rate
            st.history_buffer st.current_chunk cfg.overlap_seconds)) := by
  refine ⟨?_, ?_, ?_⟩
  · intro h1 h2
    unfold watchdog_tick
    rw [if_pos ⟨h1, List.length_pos.mpr h2⟩]
  · intro h
    unfold watchdog_tick
    rw [if_neg (fun hx => by simp [h] at hx)]
  · intro hI h1 h2 ht
    have hw : watchdog_tick cfg.force_process_interval st t
        = { st with chunk_ready := true } := by
      unfold watchdog_tick
      rw [if_pos ⟨h1, List.length_pos.mpr h2⟩]
    have hforce : cfg.force_process_interval ≤ t' - st.last_processed_time := by
      linarith
    rw [hw]
    simp only [chunk_processor_step]
    rw [if_pos (Or.inl trivial), if_pos (List.length_pos.mpr h2),
      if_neg (fun hx => hx.2 hforce)]

/-- C4 witness: at time 6 with forced-flush interval 3 and one buffered
block, the watchdog raises the signal and the processor emits the (silent)
segment. -/
theorem watchdog_forced_flush_witness :
    (chunk_processor_step cfgNoOv
        (watchdog_tick cfgNoOv.force_process_interval stStalled 6) 6).emitted
      = some [[0]] := by
  have h := (watchdog_forced_flush cfgNoOv stStalled 6 6).2.2
    (by norm_num [cfgNoOv]) (by norm_num [cfgNoOv, stStalled])
    (by simp [stStalled]) le_rfl
  rw [h]
  norm_num [combine_chunks_with_overlap, cfgNoOv, stStalled]

/-- C7: after every record-and-trim into the History Ring its length is at
most the cap of 20; consequently a processor evaluation either leaves the
ring untouched or leaves it within the cap. -/
theorem history_ring_bounded (history_buffer current_chunk : List Frame)
    (cfg : Config) (st : HandlerState) (t : ℚ) :
    (recordHistory history_buffer current_chunk).length ≤ 20 ∧
    ((chunk_processor_step cfg st t).state.history_buffer
        = st.history_buffer ∨
      (chunk_processor_step cfg st t).state.history_buffer.length ≤ 20) := by
  constructor
  · exact recordHistory_length_le history_buffer current_chunk
  · simp only [chunk_processor_step]
    split_ifs with h1 h2 h3 <;>
      first
        | exact Or.inl rfl
        | exact Or.inr (recordHistory_length_le _ _)

/-- C8: the effective overlap installed by `start_realtime_recording` is
exactly `min(chunk_overlap_seconds, 0.9 * chunk_duration_seconds)`, and for
any non-negative duration smaller than the configured overlap the effective
overlap is clamped to 0.9 times the duration. -/
theorem overlap_clamped
    (chunk_overlap_seconds chunk_duration_seconds sample_rate : ℚ) :
    (startConfig sample_rate chunk_duration_seconds
        chunk_overlap_seconds).overlap_seconds
      = min chunk_overlap_seconds (chunk_duration_seconds * (9 / 10)) ∧
    (0 ≤ chunk_duration_seconds →
      chunk_duration_seconds < chunk_overlap_seconds →
      effectiveOverlapSeconds chunk_overlap_seconds chunk_duration_seconds
        = chunk_duration_seconds * (9 / 10)) := by
  constructor
  · rfl
  · intro hd ho
    unfold effectiveOverlapSeconds
    exact min_eq_right (by linarith)

/-- C8 witness: a configured overlap of 2 s against a 1 s segment duration
is clamped to 0.9 s. -/
theorem overlap_clamped_witness :
    effectiveOverlapSeconds 2 1 = 1 * (9 / 10) :=
  (overlap_clamped 2 1 44100).2 (by norm_num) (by norm_num)

/-- C10 witness: with 4 consecutive empty results and 1 s elapsed, the call
is skipped with no collaborator invocation and untouched state; with a fresh
counter, the non-empty result "hi" resets the counter to 0. -/
theorem transcriber_skip_and_reset_witness :
    transcribe_audio ⟨4, 0⟩ 1 true 2048 (some "hi".data)
      = { result := [], state := ⟨4, 0⟩, apiCalled := false } ∧
    (transcribe_audio ⟨0, 0⟩ 1 true 2048 (some "hi".data)).state.empty_count
      = 0 := by
  constructor
  · exact (transcriber_skip_and_reset ⟨4, 0⟩ 1 2048 (some "hi".data)
      (by norm_num) (by norm_num)).1
  · have hp : pyStrip ("hi".data : Text) ≠ [] := by decide
    have he : transcribe_audio ⟨0, 0⟩ 1 true 2048 (some "hi".data)
        = { result := "hi".data,
            state := { empty_count := 0, last_transcription_time := 1 },
            apiCalled := true } := by
      norm_num [transcribe_audio, hp]
    exact (transcriber_skip_and_reset ⟨4, 0⟩ 1 2048 (some "hi".data)
      (by norm_num) (by norm_num)).2 ⟨0, 0⟩ 1 true 2048 (some "hi".data)
      (by rw [he]; exact hp)
